import Mathlib

/-
  Shallow embedding of the nanoclaw/microclaw runtime cores:
  - microclaw-protocol (Envelope, TransportMessage, TTL check)
  - microclaw-device runtime state machine (dedup/TTL gates, boot-failure latch,
    heartbeat staleness, reconciliation flag, outbound emission)
  - microclaw-host command path (allowlist gating, sandbox circuit breaker)

  Machine integers are modelled as Nat with explicit saturation where the Rust
  code uses saturating arithmetic (u32/u64 saturating_add, saturating_mul,
  saturating_sub; Nat subtraction is already saturating).  The wall clock
  (now_ms) is passed explicitly.  serde_json parse results are modelled as
  fields of a Payload record, so the as_* accessors keep their kind gates.
-/

namespace Microclaw

def U32_MAX : Nat := 2 ^ 32 - 1

def U64_MAX : Nat := 2 ^ 64 - 1

/-- Rust u32::saturating_add. -/
def satAdd32 (a b : Nat) : Nat := min (a + b) U32_MAX

/-- Rust u64::saturating_add. -/
def satAdd64 (a b : Nat) : Nat := min (a + b) U64_MAX

/-- Rust u64::saturating_mul. -/
def satMul64 (a b : Nat) : Nat := min (a * b) U64_MAX

/-- Association-list model of HashMap keyed by String: insert replaces an
existing binding or appends a fresh one. -/
def upsert {β : Type} : List (String × β) → String → β → List (String × β)
  | [], k, v => [(k, v)]
  | (k1, v1) :: rest, k, v =>
    if k1 = k then (k, v) :: rest else (k1, v1) :: upsert rest k v

/-- Association-list model of HashMap lookup. -/
def assocFind {β : Type} : List (String × β) → String → Option β
  | [], _ => none
  | (k1, v) :: rest, k => if k1 = k then some v else assocFind rest k

/-- Association-list model of HashMap remove. -/
def removeKey {β : Type} (l : List (String × β)) (k : String) : List (String × β) :=
  l.filter (fun kv => kv.1 != k)

/- ---------------- microclaw-protocol ---------------- -/

structure MessageId where
  str : String
deriving DecidableEq

structure Envelope where
  v : Nat
  seq : Nat
  source : String
  device_id : String
  session_id : String
  message_id : MessageId
deriving DecidableEq

inductive MessageKind
  | hello
  | helloAck
  | statusSnapshot
  | statusDelta
  | snapshotRequest
  | command
  | commandAck
  | commandResult
  | error
  | touchEvent
  | heartbeat
  | hostCommand
  | unknown
deriving DecidableEq

inductive DeviceAction
  | reconnect
  | wifiReconnect
  | statusGet
  | otaStart
  | openConversation
  | micToggle
  | mute
  | endSession
  | syncNow
  | unpair
  | diagnosticsSnapshot
  | restart
  | retry
  | unknown
deriving DecidableEq

structure DeviceCommand where
  action : DeviceAction
  args : List (String × String)
deriving DecidableEq

structure DeviceStatus where
  wifi_ok : Bool
  host_reachable : Bool
  host_latency_ms : Option Nat
  rssi_dbm : Option Int
  mode : Option String
  scene : Option String
  battery_percent : Option Nat
  queue_depth : Option Nat
  ota_state : Option String
deriving DecidableEq

def DeviceStatus.default : DeviceStatus :=
  { wifi_ok := false, host_reachable := false, host_latency_ms := none,
    rssi_dbm := none, mode := none, scene := none, battery_percent := none,
    queue_depth := none, ota_state := none }

structure ProtocolError where
  code : String
  detail : String
  recoverable : Bool
  retry_after_ms : Option Nat
deriving DecidableEq

/-- Model of an opaque serde_json payload: each field is the (memoised) result
of the corresponding parse the runtime performs on the JSON body. -/
structure Payload where
  cmd : Option DeviceCommand := none
  status : Option DeviceStatus := none
  result : Option String := none
  reason : Option String := none
  err : Option ProtocolError := none
deriving DecidableEq

structure TransportMessage where
  envelope : Envelope
  kind : MessageKind
  corr_id : Option String
  ttl_ms : Option Nat
  issued_at : Option Nat
  signature : Option String
  nonce : Option String
  payload : Payload
deriving DecidableEq

/-- TransportMessage::is_expired: saturating subtraction on u64. -/
def TransportMessage.is_expired (m : TransportMessage) (now_ms : Nat) : Bool :=
  match m.issued_at, m.ttl_ms with
  | some ts, some ttl => decide (now_ms - ts > ttl)
  | _, _ => false

/-- TransportMessage::is_replay. -/
def TransportMessage.is_replay (m : TransportMessage) (last_seq : Nat) : Bool :=
  decide (m.envelope.seq ≤ last_seq)

/-- TransportMessage::as_device_command (kind gate + payload parse). -/
def TransportMessage.as_device_command (m : TransportMessage) : Option DeviceCommand :=
  if m.kind = .command ∨ m.kind = .hostCommand then m.payload.cmd else none

/-- TransportMessage::as_status_snapshot (kind gate + payload parse). -/
def TransportMessage.as_status_snapshot (m : TransportMessage) : Option DeviceStatus :=
  if m.kind = .statusSnapshot ∨ m.kind = .statusDelta then m.payload.status else none

/-- runtime.rs parse_command_payload: payload parse without a kind gate. -/
def parse_command_payload (p : Payload) : Option DeviceCommand :=
  p.cmd

/- ---------------- microclaw-device runtime ---------------- -/

def DEFAULT_SAFETY_RETRIES : Nat := 5

/-- storage::keys::BOOT_FAILURE_COUNT. -/
def BOOT_FAILURE_COUNT : String := "boot_failure_count"

inductive RuntimeMode
  | booting
  | connected
  | offline
  | error (reason : String)
  | safeMode (reason : String)
deriving DecidableEq

inductive RuntimeAction
  | none
  | emitAck (corr_id : String) (status : String)
  | emitCommand (action : DeviceAction)
  | raiseUiState (message : String)
deriving DecidableEq

structure InFlightCommand where
  corr_id : String
  action : DeviceAction
  enqueued_at_ms : Nat
deriving DecidableEq

/-- Key/value model of the DeviceStorage trait (u32 and string channels). -/
structure DeviceStorage where
  u32s : List (String × Nat)
  strs : List (String × String)
deriving DecidableEq

def DeviceStorage.set_u32 (st : DeviceStorage) (key : String) (value : Nat) : DeviceStorage :=
  { st with u32s := upsert st.u32s key value }

/-- RuntimeState of the device (scene cache omitted: pure UI derived data). -/
structure RuntimeState where
  mode : RuntimeMode
  last_seq : Nat
  outbound_seq : Nat
  device_id : String
  seen_message_ids : List (String × Nat)
  in_flight : List (String × InFlightCommand)
  diagnostics : List String
  last_status : DeviceStatus
  offline_since_ms : Option Nat
  last_heartbeat_ms : Option Nat
  host_allowlist : List String
  safety_fail_count : Nat
  safety_fail_limit : Nat
  ota_in_progress : Bool
  ota_target_version : Option String
  ota_error_reason : Option String
  boot_failure_count : Nat
  boot_retry_limit : Nat
  storage : Option DeviceStorage
  pending_reconciliation : Bool
deriving DecidableEq

def RuntimeState.new : RuntimeState :=
  { mode := .booting, last_seq := 0, outbound_seq := 0, device_id := "device",
    seen_message_ids := [], in_flight := [], diagnostics := [],
    last_status := DeviceStatus.default, offline_since_ms := none,
    last_heartbeat_ms := none, host_allowlist := [], safety_fail_count := 0,
    safety_fail_limit := DEFAULT_SAFETY_RETRIES, ota_in_progress := false,
    ota_target_version := none, ota_error_reason := none,
    boot_failure_count := 0, boot_retry_limit := 3, storage := none,
    pending_reconciliation := false }

def RuntimeState.is_host_allowed (s : RuntimeState) (source : String) : Bool :=
  s.host_allowlist.isEmpty
    || s.host_allowlist.any (fun allowed => allowed == source || allowed == "*")

/-- VecDeque trim loop: pop_front while more than 16 entries. -/
def trimDiagnostics (d : List String) : List String :=
  if _h : d.length > 16 then trimDiagnostics d.tail else d
termination_by d.length
decreasing_by simp only [List.length_tail]; omega

def RuntimeState.push_diagnostic (s : RuntimeState) (entry : String) : RuntimeState :=
  { s with diagnostics := trimDiagnostics (s.diagnostics ++ [entry]) }

def RuntimeState.mark_offline_with_reason (s : RuntimeState) (reason : String) (now_ms : Nat) :
    RuntimeState :=
  if s.mode = .offline then s
  else
    ({ s with mode := .offline, offline_since_ms := some now_ms }).push_diagnostic reason

def RuntimeState.persist_boot_failure_count (s : RuntimeState) : RuntimeState :=
  match s.storage with
  | some st =>
    { s with storage := some (st.set_u32 BOOT_FAILURE_COUNT s.boot_failure_count) }
  | none => s

def RuntimeState.clear_boot_failure_count (s : RuntimeState) : RuntimeState :=
  ({ s with boot_failure_count := 0 }).persist_boot_failure_count

def RuntimeState.mark_boot_success (s : RuntimeState) : RuntimeState :=
  let s1 := s.clear_boot_failure_count
  { s1 with mode := .connected,
            last_status := { s1.last_status with mode := some "connected" } }

def RuntimeState.mark_boot_failure (s : RuntimeState) (now_ms : Nat) (reason : String) :
    RuntimeState :=
  let s1 := { s with boot_failure_count := satAdd32 s.boot_failure_count 1 }
  let s2 := s1.persist_boot_failure_count
  let s3 := s2.push_diagnostic reason
  if s3.boot_failure_count ≥ s3.boot_retry_limit then
    ({ s3 with mode := .safeMode "boot_failures_exceeded",
               offline_since_ms := some now_ms }).push_diagnostic "boot_failure_detected"
  else
    ({ s3 with mode := .error "boot_retry" }).mark_offline_with_reason
      "boot_failure_detected" now_ms

def RuntimeState.mark_offline_if_stale (s : RuntimeState) (now_ms heartbeat_timeout_ms : Nat) :
    RuntimeState × Bool :=
  if s.mode = .offline then (s, false)
  else
    let last_seen := s.last_heartbeat_ms.getD now_ms
    if now_ms - last_seen > heartbeat_timeout_ms then
      (s.mark_offline_with_reason "heartbeat_stale" now_ms, true)
    else (s, false)

def RuntimeState.note_heartbeat (s : RuntimeState) (now_ms : Nat) (issued_at : Option Nat) :
    RuntimeState :=
  { s with last_heartbeat_ms := some (issued_at.getD now_ms) }

def RuntimeState.is_duplicate_or_stale (s : RuntimeState) (seq : Nat) (message_id : MessageId) :
    Bool :=
  decide (seq ≤ s.last_seq) || (assocFind s.seen_message_ids message_id.str).isSome

def RuntimeState.track_message_id (s : RuntimeState) (seq : Nat) (message_id : MessageId) :
    RuntimeState :=
  let seen := if s.seen_message_ids.length > 512 then [] else s.seen_message_ids
  { s with seen_message_ids := upsert seen message_id.str seq }

def RuntimeState.apply_status_snapshot (s : RuntimeState) (status : DeviceStatus) (now_ms : Nat) :
    RuntimeState :=
  let s1 := { s with last_status := status }
  if !status.wifi_ok then
    s1.mark_offline_with_reason "status_wifi_not_ok" now_ms
  else
    match status.mode with
    | some "boot" => { s1 with mode := .booting }
    | some "connected" => { s1 with mode := .connected }
    | some "paired" => { s1 with mode := .connected }
    | some "ready" => { s1 with mode := .connected }
    | some "offline" => { s1 with mode := .offline }
    | some "safe_mode" => { s1 with mode := .safeMode "host_reported_safe_mode" }
    | some "error" => { s1 with mode := .error "host_reported_error" }
    | _ => s1

/-- The per-kind match block of apply_transport_message, run after the three
gates accepted the frame and last_seq / seen-set / heartbeat were updated. -/
def RuntimeState.kindStep (s : RuntimeState) (now_ms : Nat) (msg : TransportMessage) :
    RuntimeState × RuntimeAction :=
  match msg.kind with
  | .helloAck =>
    let s1 := s.mark_boot_success
    ({ s1 with offline_since_ms := none, safety_fail_count := 0 },
     .raiseUiState "connected")
  | .statusDelta | .statusSnapshot =>
    let s1 := match msg.as_status_snapshot with
      | some status => s.apply_status_snapshot status now_ms
      | none => s
    let s2 := if msg.kind = .statusSnapshot then
        { s1 with pending_reconciliation := false }
      else s1
    ({ s2 with offline_since_ms := none }, .raiseUiState "status_updated")
  | .command | .hostCommand =>
    match msg.as_device_command with
    | some command =>
      match command.action with
      | .reconnect => ({ s with mode := .offline }, .raiseUiState "command_reconnect")
      | .retry => ({ s with mode := .booting }, .raiseUiState "command_retry")
      | .restart => ({ s with mode := .booting }, .raiseUiState "command_restart")
      | .otaStart =>
        ({ s with ota_target_version := assocFind command.args "version",
                  ota_error_reason := Option.none, ota_in_progress := true },
         .raiseUiState "command_ota_start")
      | .diagnosticsSnapshot => (s, .raiseUiState "command_diagnostics")
      | _ => (s, .raiseUiState "command_received")
    | none => (s, .raiseUiState "command_parse_error")
  | .commandAck =>
    match msg.corr_id with
    | some corr_id =>
      ({ s with in_flight := removeKey s.in_flight corr_id },
       .emitAck corr_id "command_ack")
    | none => (s, .none)
  | .commandResult =>
    let s1 := match msg.corr_id with
      | some corr_id => { s with in_flight := removeKey s.in_flight corr_id }
      | none => s
    match parse_command_payload msg.payload, msg.payload.result with
    | some command, some result =>
      if command.action = .otaStart then
        if result = "ok" ∨ result = "success" then
          (s1, .raiseUiState "ota_result_ok")
        else if result = "error" ∨ result = "failed" then
          ({ s1 with ota_error_reason := some (msg.payload.reason.getD "ota_failed"),
                     ota_in_progress := false },
           .raiseUiState "ota_result_failed")
        else (s1, .raiseUiState "command_result")
      else (s1, .raiseUiState "command_result")
    | _, _ => (s1, .raiseUiState "command_result")
  | .error => (s, .raiseUiState "host_error")
  | .heartbeat => ({ s with mode := .connected }, .none)
  | _ => (s, .none)

/-- RuntimeState::apply_transport_message with the wall clock passed explicitly
(the Rust code reads now_ms() for the TTL check and the heartbeat default). -/
def RuntimeState.apply_transport_message (s : RuntimeState) (now_ms : Nat)
    (msg : TransportMessage) : RuntimeState × RuntimeAction :=
  if !(s.is_host_allowed msg.envelope.source) then
    ({ s with safety_fail_count := satAdd32 s.safety_fail_count 1 },
     .raiseUiState "command_denied_unauthorized_source")
  else if msg.is_expired now_ms then
    (s, .raiseUiState "message_expired_ttl")
  else if s.is_duplicate_or_stale msg.envelope.seq msg.envelope.message_id then
    (s, .raiseUiState "replay_or_duplicate_rejected")
  else
    let s1 := { s with last_seq := msg.envelope.seq }
    let s2 := s1.track_message_id msg.envelope.seq msg.envelope.message_id
    let s3 := s2.note_heartbeat now_ms msg.issued_at
    s3.kindStep now_ms msg

/-- The three inbound gates of apply_transport_message, as a predicate. -/
def RuntimeState.accepts (s : RuntimeState) (now_ms : Nat) (msg : TransportMessage) : Bool :=
  s.is_host_allowed msg.envelope.source
    && !(msg.is_expired now_ms)
    && !(s.is_duplicate_or_stale msg.envelope.seq msg.envelope.message_id)

/-- RuntimeState::emit_command (now_ms passed explicitly). -/
def RuntimeState.emit_command (s : RuntimeState) (now_ms : Nat) (action : DeviceAction) :
    RuntimeState × TransportMessage :=
  let seq := satAdd64 s.outbound_seq 1
  let message_id : MessageId := ⟨"cmd-" ++ toString seq⟩
  let corr_id := "corr-" ++ toString seq
  let envelope : Envelope :=
    { v := 1, seq := seq, source := s.device_id, device_id := s.device_id,
      session_id := "boot", message_id := message_id }
  let s1 := { s with outbound_seq := seq,
                     in_flight := upsert s.in_flight corr_id
                       { corr_id := corr_id, action := action, enqueued_at_ms := now_ms } }
  (s1,
   { envelope := envelope, kind := .command, corr_id := some corr_id,
     ttl_ms := none, issued_at := some now_ms, signature := none, nonce := none,
     payload := { cmd := some { action := action, args := [] } } })

/-- RuntimeState::emit_snapshot_request (now_ms passed explicitly). -/
def RuntimeState.emit_snapshot_request (s : RuntimeState) (now_ms : Nat) :
    RuntimeState × TransportMessage :=
  let seq := satAdd64 s.outbound_seq 1
  let message_id : MessageId := ⟨"snap-req-" ++ toString seq⟩
  let envelope : Envelope :=
    { v := 1, seq := seq, source := s.device_id, device_id := s.device_id,
      session_id := "boot", message_id := message_id }
  let s1 := { s with outbound_seq := seq, pending_reconciliation := true }
  (s1,
   { envelope := envelope, kind := .snapshotRequest, corr_id := none,
     ttl_ms := none, issued_at := some now_ms, signature := none, nonce := none,
     payload := { reason := some "transport_reconnect" } })

/- ---------------- microclaw-host ---------------- -/

/-- microclaw_sandbox::CommandResult. -/
structure CommandResult where
  status : Int
  stdout : String
  stderr : String
deriving DecidableEq

/-- Outcome of one invocation of the external container backend. -/
inductive BackendOutcome
  | ok (result : CommandResult)
  | err (message : String)
deriving DecidableEq

/-- The fields of ScheduledTask that run_in_sandbox reads. -/
structure ScheduledTask where
  id : String
  prompt : String
  context_mode : String
  group_folder : String
deriving DecidableEq

inductive Work
  | command (action : DeviceAction) (corr_id : Option String) (group : String)
      (source : String) (args : List (String × String))
  | scheduledTask (id : String)
deriving DecidableEq

/-- The HostConfig fields the modelled host paths read. -/
structure HostConfig where
  host_id : String
  device_id : String
  allowed_sources : List String
  allowed_host_actions : List String
  queue_retry_backoff_ms : Nat
  dry_run : Bool
deriving DecidableEq

/-- Rust u8::to_ascii_lowercase on a char (ASCII letters only). -/
def asciiLowerChar (c : Char) : Char :=
  if 'A' ≤ c ∧ c ≤ 'Z' then Char.ofNat (c.toNat + 32) else c

/-- Rust str::to_ascii_lowercase. -/
def asciiLower (s : String) : String :=
  ⟨s.data.map asciiLowerChar⟩

/-- lib.rs parse_host_action. -/
def parse_host_action (raw : String) : Option DeviceAction :=
  match asciiLower raw with
  | "reconnect" => some .reconnect
  | "wifi_reconnect" => some .wifiReconnect
  | "status_get" => some .statusGet
  | "status" => some .statusGet
  | "host_status" => some .statusGet
  | "sync_now" => some .syncNow
  | "open_conversation" => some .openConversation
  | "mic_toggle" => some .micToggle
  | "mute" => some .mute
  | "end_session" => some .endSession
  | "unpair" => some .unpair
  | "diagnostics_snapshot" => some .diagnosticsSnapshot
  | "restart" => some .restart
  | "retry" => some .retry
  | "ota_start" => some .otaStart
  | _ => none

/-- The host state touched by the inbound-command and sandbox paths. -/
structure HostState where
  config : HostConfig
  allowed_actions : List DeviceAction
  commands_rejected : Nat
  inbound_filtered : Nat
  outbound_frames_count : Nat
  outbound : List TransportMessage
  drops_out : Nat
  queue : List (String × String × Work)
  backend_failures : Nat
  backend_circuit_until : Nat

/-- Host::new, restricted to the modelled fields: derives allowed_actions from
the raw config strings with parse_host_action. -/
def mkHost (config : HostConfig) : HostState :=
  { config := config,
    allowed_actions := config.allowed_host_actions.filterMap parse_host_action,
    commands_rejected := 0, inbound_filtered := 0, outbound_frames_count := 0,
    outbound := [], drops_out := 0, queue := [],
    backend_failures := 0, backend_circuit_until := 0 }

def HostState.is_source_allowed (h : HostState) (source : String) : Bool :=
  h.config.allowed_sources.isEmpty || h.config.allowed_sources.contains source

/-- Host::build_outbound (the message_id uses now_ms, passed explicitly). -/
def HostState.build_outbound (h : HostState) (now_ms : Nat) (destination : String)
    (kind : MessageKind) (payload : Payload) (corr_id : Option String) : TransportMessage :=
  { envelope :=
      { v := 1, seq := 1, source := h.config.host_id, device_id := destination,
        session_id := destination,
        message_id :=
          ⟨(if destination.isEmpty then "global" else destination) ++ "-" ++ toString now_ms⟩ },
    kind := kind, corr_id := corr_id, ttl_ms := none, issued_at := none,
    signature := none, nonce := none, payload := payload }

/-- LoopTransport::send_frame (bounded at 128, drop-oldest). -/
def HostState.send_frame (h : HostState) (frame : TransportMessage) : HostState :=
  let h1 := if h.outbound.length ≥ 128 then
      { h with outbound := h.outbound.tail, drops_out := satAdd64 h.drops_out 1 }
    else h
  { h1 with outbound := h1.outbound ++ [frame] }

/-- Host::emit_outbound. -/
def HostState.emit_outbound (h : HostState) (frame : TransportMessage) : HostState :=
  let h1 := { h with outbound_frames_count := satAdd64 h.outbound_frames_count 1 }
  h1.send_frame frame

/-- Host::enqueue_command. -/
def HostState.enqueue_command (h : HostState) (now_ms : Nat) (source : String)
    (group : String) (corr_id : Option String) (cmd : DeviceCommand)
    (destination : String) : HostState :=
  if !h.config.allowed_host_actions.isEmpty && !(h.allowed_actions.contains cmd.action) then
    let h1 := { h with commands_rejected := satAdd64 h.commands_rejected 1 }
    let rejected := h1.build_outbound now_ms destination .error
      { err := some { code := "command_denied",
                      detail := "command is not in host allowlist",
                      recoverable := false, retry_after_ms := none } }
      corr_id
    h1.emit_outbound rejected
  else
    let work_group := if group.isEmpty then destination else group
    { h with queue := h.queue ++
        [(work_group, "cmd-" ++ destination ++ "-" ++ toString now_ms,
          Work.command cmd.action corr_id work_group source cmd.args)] }

/-- One iteration of the Host::process_inbound frame loop. -/
def HostState.handle_inbound_frame (h : HostState) (now_ms : Nat)
    (frame : TransportMessage) : HostState :=
  if !(h.is_source_allowed frame.envelope.source) then
    { h with inbound_filtered := satAdd64 h.inbound_filtered 1 }
  else if frame.kind = .command ∨ frame.kind = .hostCommand then
    match frame.as_device_command with
    | some cmd =>
      h.enqueue_command now_ms frame.envelope.source frame.envelope.session_id
        frame.corr_id cmd frame.envelope.device_id
    | none => h
  else if frame.kind = .heartbeat then
    h.emit_outbound
      (h.build_outbound now_ms frame.envelope.session_id .commandResult {} frame.corr_id)
  else h

/-- Result of one Host::run_in_sandbox call: the returned value, the new host
state, and whether the container backend was actually invoked. -/
structure SandboxRun where
  result : Except String CommandResult
  state : HostState
  invoked_backend : Bool

/-- Host::run_in_sandbox, with the wall clock and the backend outcome passed
explicitly (the backend is external code). -/
def HostState.run_in_sandbox (h : HostState) (now_ms : Nat) (task : ScheduledTask)
    (backend : BackendOutcome) : SandboxRun :=
  if h.config.dry_run then
    { result := .ok { status := 0,
                      stdout := "dry-run " ++ task.id ++ " " ++ task.prompt,
                      stderr := "" },
      state := h, invoked_backend := false }
  else if now_ms < h.backend_circuit_until then
    { result := .error "sandbox backend circuit breaker active",
      state := h, invoked_backend := false }
  else
    match backend with
    | .ok result =>
      { result := .ok result,
        state := { h with backend_failures := 0, backend_circuit_until := 0 },
        invoked_backend := true }
    | .err message =>
      let failures := satAdd64 h.backend_failures 1
      let backoff_ms := satMul64 (2 ^ min failures 12) h.config.queue_retry_backoff_ms
      { result := .error ("sandbox_run_failed: " ++ message),
        state := { h with backend_failures := failures,
                          backend_circuit_until := satAdd64 now_ms (min backoff_ms 30000) },
        invoked_backend := true }

/- ---------------- helper lemmas ---------------- -/

theorem upsert_length_le {b : Type} (l : List (String × b)) (k : String) (v : b) :
    (upsert l k v).length ≤ l.length + 1 := by
  induction l with
  | nil => simp [upsert]
  | cons hd tl ih =>
    simp only [upsert]
    split
    · simp
    · simpa using Nat.succ_le_succ ih

theorem assocFind_upsert {b : Type} (l : List (String × b)) (k : String) (v : b) :
    assocFind (upsert l k v) k = some v := by
  induction l with
  | nil => simp [upsert, assocFind]
  | cons hd tl ih =>
    simp only [upsert]
    split
    · simp [assocFind]
    · simp only [assocFind]
      split
      · simp_all
      · exact ih

/-- apply_status_snapshot touches neither the dedup state, the heartbeat
timestamp, nor the reconciliation flag. -/
theorem apply_status_snapshot_frame (s : RuntimeState) (st : DeviceStatus) (n : Nat) :
    (s.apply_status_snapshot st n).last_seq = s.last_seq
    ∧ (s.apply_status_snapshot st n).seen_message_ids = s.seen_message_ids
    ∧ (s.apply_status_snapshot st n).last_heartbeat_ms = s.last_heartbeat_ms
    ∧ (s.apply_status_snapshot st n).pending_reconciliation = s.pending_reconciliation
    ∧ (s.apply_status_snapshot st n).host_allowlist = s.host_allowlist := by
  unfold RuntimeState.apply_status_snapshot RuntimeState.mark_offline_with_reason
    RuntimeState.push_diagnostic
  repeat' split <;> simp_all

/-- The per-kind step preserves last_seq, the seen-set and the heartbeat
timestamp, and never reports a replay rejection. -/
theorem kindStep_frame (s : RuntimeState) (n : Nat) (msg : TransportMessage) :
    (s.kindStep n msg).1.last_seq = s.last_seq
    ∧ (s.kindStep n msg).1.seen_message_ids = s.seen_message_ids
    ∧ (s.kindStep n msg).1.last_heartbeat_ms = s.last_heartbeat_ms
    ∧ (s.kindStep n msg).1.host_allowlist = s.host_allowlist
    ∧ (s.kindStep n msg).2 ≠ .raiseUiState "replay_or_duplicate_rejected" := by
  unfold RuntimeState.kindStep RuntimeState.mark_boot_success
    RuntimeState.clear_boot_failure_count RuntimeState.persist_boot_failure_count
  cases msg.kind <;> (repeat' split) <;> simp_all [apply_status_snapshot_frame]

theorem kindStep_snapshot_pending (s : RuntimeState) (n : Nat) (msg : TransportMessage)
    (hk : msg.kind = .statusSnapshot) :
    (s.kindStep n msg).1.pending_reconciliation = false := by
  simp only [RuntimeState.kindStep, hk]
  (repeat' split) <;> simp_all

theorem kindStep_delta_pending (s : RuntimeState) (n : Nat) (msg : TransportMessage)
    (hk : msg.kind = .statusDelta) :
    (s.kindStep n msg).1.pending_reconciliation = s.pending_reconciliation := by
  simp only [RuntimeState.kindStep, hk]
  (repeat' split) <;> simp_all [apply_status_snapshot_frame]

theorem upsert_length_fresh {b : Type} (l : List (String × b)) (k : String) (v : b)
    (h : assocFind l k = none) : (upsert l k v).length = l.length + 1 := by
  induction l with
  | nil => simp [upsert]
  | cons hd tl ih =>
    obtain ⟨k1, v1⟩ := hd
    simp only [assocFind] at h
    simp only [upsert]
    by_cases hk : k1 = k
    · simp [hk] at h
    · simp only [if_neg hk] at h ⊢
      simp [ih h]

theorem assocFind_upsert_ne {b : Type} (l : List (String × b)) (k k2 : String) (v : b)
    (h : k2 ≠ k) : assocFind (upsert l k v) k2 = assocFind l k2 := by
  induction l with
  | nil => simp [upsert, assocFind, Ne.symm h]
  | cons hd tl ih =>
    obtain ⟨k1, v1⟩ := hd
    simp only [upsert]
    by_cases hk : k1 = k
    · subst hk
      simp [assocFind, Ne.symm h]
    · simp only [if_neg hk, assocFind]
      split
      · rfl
      · exact ih

/-- On an accepted frame, apply_transport_message is the gate updates followed
by the per-kind step. -/
theorem apply_accept (s : RuntimeState) (now_ms : Nat) (msg : TransportMessage)
    (h : s.accepts now_ms msg = true) :
    s.apply_transport_message now_ms msg =
      ((({ s with last_seq := msg.envelope.seq }).track_message_id msg.envelope.seq
          msg.envelope.message_id).note_heartbeat now_ms msg.issued_at).kindStep
        now_ms msg := by
  simp only [RuntimeState.accepts, Bool.and_eq_true, Bool.not_eq_true'] at h
  obtain ⟨⟨h1, h2⟩, h3⟩ := h
  simp [RuntimeState.apply_transport_message, h1, h2, h3]

/- ---------------- a concrete 513-frame accepted run ---------------- -/

/-- Distinct message ids for the seen-set run: i repetitions of a. -/
def c7id (i : Nat) : String := String.mk (List.replicate i 'a')

theorem c7id_inj {i j : Nat} (h : c7id i = c7id j) : i = j := by
  have hlen := congrArg (fun s => s.data.length) h
  simpa [c7id] using hlen

/-- An accepted heartbeat frame with a fresh sequence number and id. -/
def c7Frame (i : Nat) : TransportMessage :=
  { envelope := { v := 1, seq := i + 1, source := "host", device_id := "d",
                  session_id := "s", message_id := ⟨c7id i⟩ },
    kind := .heartbeat, corr_id := none, ttl_ms := none, issued_at := none,
    signature := none, nonce := none, payload := {} }

/-- The device state after n accepted frames, starting from the fresh state. -/
def c7Run (n : Nat) : RuntimeState :=
  (List.range n).foldl (fun s i => (s.apply_transport_message 0 (c7Frame i)).1)
    RuntimeState.new

theorem c7Run_spec (n : Nat) (hle : n ≤ 513) :
    (c7Run n).host_allowlist = []
    ∧ (c7Run n).last_seq = n
    ∧ (c7Run n).seen_message_ids.length = n
    ∧ (∀ j, (assocFind (c7Run n).seen_message_ids (c7id j)).isSome = true → j < n) := by
  induction n with
  | zero =>
    refine ⟨rfl, rfl, rfl, ?_⟩
    intro j hj
    simp [c7Run, RuntimeState.new, assocFind] at hj
  | succ n ih =>
    obtain ⟨hA, hL, hLen, hFresh⟩ := ih (by omega)
    have hstep : c7Run (n + 1) =
        ((c7Run n).apply_transport_message 0 (c7Frame n)).1 := by
      simp [c7Run, List.range_succ]
    have hfreshn : assocFind (c7Run n).seen_message_ids (c7id n) = none := by
      cases hfind : assocFind (c7Run n).seen_message_ids (c7id n) with
      | none => rfl
      | some v =>
        have : n < n := hFresh n (by simp [hfind])
        omega
    have hacc : (c7Run n).accepts 0 (c7Frame n) = true := by
      simp [RuntimeState.accepts, RuntimeState.is_host_allowed, hA,
        TransportMessage.is_expired, c7Frame, RuntimeState.is_duplicate_or_stale,
        hL, hfreshn]
    have happly := apply_accept (c7Run n) 0 (c7Frame n) hacc
    set s1 : RuntimeState := { c7Run n with last_seq := (c7Frame n).envelope.seq }
    set s2 := s1.track_message_id (c7Frame n).envelope.seq (c7Frame n).envelope.message_id
    set s3 := s2.note_heartbeat 0 (c7Frame n).issued_at
    have hks := kindStep_frame s3 0 (c7Frame n)
    have hseen2 : s2.seen_message_ids
        = upsert (c7Run n).seen_message_ids (c7id n) (n + 1) := by
      simp only [s2, s1, RuntimeState.track_message_id]
      have : ¬ ((c7Run n).seen_message_ids.length > 512) := by omega
      simp [c7Frame, this]
    have hseen3 : s3.seen_message_ids = s2.seen_message_ids := rfl
    have hlast3 : s3.last_seq = n + 1 := by
      simp [s3, s2, s1, RuntimeState.note_heartbeat, RuntimeState.track_message_id, c7Frame]
    have hallow3 : s3.host_allowlist = (c7Run n).host_allowlist := by
      simp [s3, s2, s1, RuntimeState.note_heartbeat, RuntimeState.track_message_id]
    refine ⟨?_, ?_, ?_, ?_⟩
    · rw [hstep, happly, hks.2.2.2.1, hallow3, hA]
    · rw [hstep, happly, hks.1, hlast3]
    · rw [hstep, happly, hks.2.1, hseen3, hseen2,
        upsert_length_fresh _ _ _ hfreshn, hLen]
    · intro j hj
      rw [hstep, happly, hks.2.1, hseen3, hseen2] at hj
      by_cases hjn : c7id j = c7id n
      · have := c7id_inj hjn
        omega
      · rw [assocFind_upsert_ne _ _ _ _ hjn] at hj
        have := hFresh j hj
        omega

/- ---------------- claim theorems ---------------- -/

/-- C1: outbound emission is independent of inbound deduplication state: for
every runtime state, emit_command and emit_snapshot_request leave last_seq and
the seen-message-id set unchanged, and any inbound frame with seq above
last_seq that passed the inbound gates before the call still passes after. -/
theorem outbound_independent_of_inbound (s : RuntimeState) (now_ms : Nat)
    (action : DeviceAction) :
    (s.emit_command now_ms action).1.last_seq = s.last_seq
    ∧ (s.emit_command now_ms action).1.seen_message_ids = s.seen_message_ids
    ∧ (s.emit_snapshot_request now_ms).1.last_seq = s.last_seq
    ∧ (s.emit_snapshot_request now_ms).1.seen_message_ids = s.seen_message_ids
    ∧ (∀ (now2 : Nat) (msg : TransportMessage),
        msg.envelope.seq > s.last_seq → s.accepts now2 msg = true →
        (s.emit_command now_ms action).1.accepts now2 msg = true
        ∧ (s.emit_snapshot_request now_ms).1.accepts now2 msg = true) := by
  refine ⟨rfl, rfl, rfl, rfl, ?_⟩
  intro now2 msg _ hacc
  exact ⟨hacc, hacc⟩

/-- Witness for C1 at the fresh state and a concrete heartbeat frame. -/
theorem outbound_independent_of_inbound_witness :
    (RuntimeState.new.emit_command 5 .retry).1.accepts 0 (c7Frame 0) = true
    ∧ (RuntimeState.new.emit_snapshot_request 5).1.accepts 0 (c7Frame 0) = true :=
  (outbound_independent_of_inbound RuntimeState.new 5 .retry).2.2.2.2 0 (c7Frame 0)
    (by decide) (by decide)

/-- C2: if ttl_ms and issued_at are both set, the source passes the allowlist
and now - issued_at exceeds ttl_ms, the frame is rejected with the expired-TTL
UI state and the runtime state is unchanged (in particular last_seq and the
seen-set keep their prior values). -/
theorem ttl_gate_rejects (s : RuntimeState) (now_ms ts ttl : Nat)
    (msg : TransportMessage)
    (hsrc : s.is_host_allowed msg.envelope.source = true)
    (hts : msg.issued_at = some ts) (httl : msg.ttl_ms = some ttl)
    (hexp : now_ms - ts > ttl) :
    s.apply_transport_message now_ms msg = (s, .raiseUiState "message_expired_ttl")
    ∧ (s.apply_transport_message now_ms msg).1.last_seq = s.last_seq
    ∧ (s.apply_transport_message now_ms msg).1.seen_message_ids = s.seen_message_ids := by
  have hexp2 : msg.is_expired now_ms = true := by
    unfold TransportMessage.is_expired
    rw [hts, httl]
    simpa using hexp
  have heq : s.apply_transport_message now_ms msg
      = (s, .raiseUiState "message_expired_ttl") := by
    simp [RuntimeState.apply_transport_message, hsrc, hexp2]
  exact ⟨heq, by rw [heq], by rw [heq]⟩

/-- Witness for C2: issued_at 0, ttl_ms 100, at clock 1000000. -/
theorem ttl_gate_rejects_witness :
    RuntimeState.new.apply_transport_message 1000000
        { c7Frame 0 with ttl_ms := some 100, issued_at := some 0 }
      = (RuntimeState.new, .raiseUiState "message_expired_ttl") :=
  (ttl_gate_rejects RuntimeState.new 1000000 0 100
    { c7Frame 0 with ttl_ms := some 100, issued_at := some 0 }
    (by decide) rfl rfl (by decide)).1

/-- C9: with no heartbeat ever recorded, mark_offline_if_stale returns false
and leaves the state unchanged, for every clock value and timeout. -/
theorem offline_stale_none_heartbeat (s : RuntimeState) (now_ms timeout_ms : Nat)
    (h : s.last_heartbeat_ms = none) :
    s.mark_offline_if_stale now_ms timeout_ms = (s, false) := by
  unfold RuntimeState.mark_offline_if_stale
  split
  · rfl
  · simp [h]

/-- Witness for C9 at the fresh state. -/
theorem offline_stale_none_heartbeat_witness :
    RuntimeState.new.mark_offline_if_stale 999999 0 = (RuntimeState.new, false) :=
  offline_stale_none_heartbeat RuntimeState.new 999999 0 rfl

/-- C10: TTL expiry uses saturating subtraction, so a frame issued in the
future is never expired for any ttl_ms; and every accepted frame of any kind
sets last_heartbeat_ms to its issued_at when present, else to the clock. -/
theorem ttl_saturation_and_heartbeat_update :
    (∀ (msg : TransportMessage) (now_ms ts : Nat),
        msg.issued_at = some ts → now_ms < ts → msg.is_expired now_ms = false)
    ∧ (∀ (s : RuntimeState) (now_ms : Nat) (msg : TransportMessage),
        s.accepts now_ms msg = true →
        (s.apply_transport_message now_ms msg).1.last_heartbeat_ms
          = some (msg.issued_at.getD now_ms)) := by
  constructor
  · intro msg now_ms ts hts hlt
    unfold TransportMessage.is_expired
    rw [hts]
    cases httl : msg.ttl_ms with
    | none => rfl
    | some ttl => simp [Nat.sub_eq_zero_of_le (Nat.le_of_lt hlt)]
  · intro s now_ms msg hacc
    rw [apply_accept s now_ms msg hacc, (kindStep_frame _ _ _).2.2.1]
    rfl

/-- Witness for C10: a future-issued frame is not expired, and an accepted
frame with no issued_at stamps the clock. -/
theorem ttl_saturation_and_heartbeat_update_witness :
    TransportMessage.is_expired { c7Frame 0 with issued_at := some 100, ttl_ms := some 0 } 5
        = false
    ∧ (RuntimeState.new.apply_transport_message 77 (c7Frame 0)).1.last_heartbeat_ms
        = some 77 :=
  ⟨ttl_saturation_and_heartbeat_update.1
      { c7Frame 0 with issued_at := some 100, ttl_ms := some 0 } 5 100 rfl (by decide),
   ttl_saturation_and_heartbeat_update.2 RuntimeState.new 77 (c7Frame 0) (by decide)⟩

/-- C8: emit_snapshot_request sets pending_reconciliation; an accepted
StatusSnapshot clears it; an accepted StatusDelta leaves it unchanged. -/
theorem reconciliation_flag_spec :
    (∀ (s : RuntimeState) (now_ms : Nat),
        (s.emit_snapshot_request now_ms).1.pending_reconciliation = true)
    ∧ (∀ (s : RuntimeState) (now_ms : Nat) (msg : TransportMessage),
        s.accepts now_ms msg = true → msg.kind = .statusSnapshot →
        (s.apply_transport_message now_ms msg).1.pending_reconciliation = false)
    ∧ (∀ (s : RuntimeState) (now_ms : Nat) (msg : TransportMessage),
        s.accepts now_ms msg = true → msg.kind = .statusDelta →
        (s.apply_transport_message now_ms msg).1.pending_reconciliation
          = s.pending_reconciliation) := by
  refine ⟨fun s n => rfl, ?_, ?_⟩
  · intro s n msg hacc hk
    rw [apply_accept s n msg hacc]
    exact kindStep_snapshot_pending _ n msg hk
  · intro s n msg hacc hk
    rw [apply_accept s n msg hacc, kindStep_delta_pending _ n msg hk]
    rfl

/-- Witness for C8 at concrete snapshot and delta frames. -/
theorem reconciliation_flag_spec_witness :
    ((RuntimeState.new.emit_snapshot_request 3).1.apply_transport_message 0
        { c7Frame 0 with kind := .statusSnapshot }).1.pending_reconciliation = false
    ∧ ((RuntimeState.new.emit_snapshot_request 3).1.apply_transport_message 0
        { c7Frame 0 with kind := .statusDelta }).1.pending_reconciliation = true := by
  refine ⟨reconciliation_flag_spec.2.1 _ 0 _ (by decide) rfl, ?_⟩
  rw [reconciliation_flag_spec.2.2 _ 0 _ (by decide) rfl]
  exact reconciliation_flag_spec.1 RuntimeState.new 3

/-- C3: past the allowlist and TTL gates, a frame is rejected as a replay or
duplicate exactly when seq is at most last_seq or its message_id is already in
the seen-set; after any accepted frame, last_seq = max(last_seq, seq) and the
message_id is in the seen-set. -/
theorem replay_gate_and_acceptance (s : RuntimeState) (now_ms : Nat)
    (msg : TransportMessage)
    (hsrc : s.is_host_allowed msg.envelope.source = true)
    (hexp : msg.is_expired now_ms = false) :
    (s.apply_transport_message now_ms msg
        = (s, .raiseUiState "replay_or_duplicate_rejected")
      ↔ (msg.envelope.seq ≤ s.last_seq
          ∨ (assocFind s.seen_message_ids msg.envelope.message_id.str).isSome = true))
    ∧ (s.is_duplicate_or_stale msg.envelope.seq msg.envelope.message_id = false →
        (s.apply_transport_message now_ms msg).1.last_seq
            = max s.last_seq msg.envelope.seq
        ∧ (assocFind (s.apply_transport_message now_ms msg).1.seen_message_ids
            msg.envelope.message_id.str).isSome = true) := by
  constructor
  · constructor
    · intro heq
      by_cases hdup : s.is_duplicate_or_stale msg.envelope.seq msg.envelope.message_id = true
      · simpa [RuntimeState.is_duplicate_or_stale] using hdup
      · exfalso
        have hdup2 : s.is_duplicate_or_stale msg.envelope.seq msg.envelope.message_id
            = false := by
          simpa using hdup
        have hacc : s.accepts now_ms msg = true := by
          simp [RuntimeState.accepts, hsrc, hexp, hdup2]
        rw [apply_accept s now_ms msg hacc] at heq
        exact (kindStep_frame _ now_ms msg).2.2.2.2 (congrArg Prod.snd heq)
    · intro hor
      have hdup : s.is_duplicate_or_stale msg.envelope.seq msg.envelope.message_id
          = true := by
        simpa [RuntimeState.is_duplicate_or_stale] using hor
      simp [RuntimeState.apply_transport_message, hsrc, hexp, hdup]
  · intro hdup
    have hacc : s.accepts now_ms msg = true := by
      simp [RuntimeState.accepts, hsrc, hexp, hdup]
    have hlt : s.last_seq < msg.envelope.seq := by
      simp [RuntimeState.is_duplicate_or_stale] at hdup
      omega
    rw [apply_accept s now_ms msg hacc]
    have hks := kindStep_frame
      ((({ s with last_seq := msg.envelope.seq }).track_message_id msg.envelope.seq
          msg.envelope.message_id).note_heartbeat now_ms msg.issued_at) now_ms msg
    constructor
    · rw [hks.1]
      show msg.envelope.seq = max s.last_seq msg.envelope.seq
      omega
    · rw [hks.2.1]
      show (assocFind
        ((({ s with last_seq := msg.envelope.seq }).track_message_id msg.envelope.seq
            msg.envelope.message_id).seen_message_ids)
        msg.envelope.message_id.str).isSome = true
      simp [RuntimeState.track_message_id, assocFind_upsert]

/-- Witness for C3: a stale frame (seq 0) is rejected against the fresh state,
and an accepted frame (seq 1) raises last_seq to the max. -/
theorem replay_gate_and_acceptance_witness :
    RuntimeState.new.apply_transport_message 0
        { c7Frame 0 with envelope := { (c7Frame 0).envelope with seq := 0 } }
      = (RuntimeState.new, .raiseUiState "replay_or_duplicate_rejected")
    ∧ (RuntimeState.new.apply_transport_message 0 (c7Frame 0)).1.last_seq
        = max RuntimeState.new.last_seq (c7Frame 0).envelope.seq :=
  ⟨((replay_gate_and_acceptance RuntimeState.new 0
      { c7Frame 0 with envelope := { (c7Frame 0).envelope with seq := 0 } }
      (by decide) (by decide)).1).mpr (Or.inl (by decide)),
   ((replay_gate_and_acceptance RuntimeState.new 0 (c7Frame 0)
      (by decide) (by decide)).2 (by decide)).1⟩

/-- C4: mark_boot_failure increments and persists boot_failure_count; when the
new count reaches boot_retry_limit (default 3) the mode latches to SafeMode and
is not overwritten by Offline in the same call, else the call ends Offline. -/
theorem mark_boot_failure_spec :
    RuntimeState.new.boot_retry_limit = 3
    ∧ (∀ (s : RuntimeState) (now_ms : Nat) (reason : String),
        s.boot_failure_count < U32_MAX →
        (s.mark_boot_failure now_ms reason).boot_failure_count
            = s.boot_failure_count + 1
        ∧ (∀ st, s.storage = some st →
            (s.mark_boot_failure now_ms reason).storage
              = some (st.set_u32 BOOT_FAILURE_COUNT (s.boot_failure_count + 1)))
        ∧ (s.boot_failure_count + 1 ≥ s.boot_retry_limit →
            (s.mark_boot_failure now_ms reason).mode
              = .safeMode "boot_failures_exceeded")
        ∧ (s.boot_failure_count + 1 < s.boot_retry_limit →
            (s.mark_boot_failure now_ms reason).mode = .offline)) := by
  refine ⟨rfl, ?_⟩
  intro s now_ms reason hcount
  have hsat : satAdd32 s.boot_failure_count 1 = s.boot_failure_count + 1 := by
    simp only [satAdd32]
    omega
  refine ⟨?_, ?_, ?_, ?_⟩
  · cases hst : s.storage <;>
      by_cases hge : s.boot_failure_count + 1 ≥ s.boot_retry_limit <;>
        simp [RuntimeState.mark_boot_failure, RuntimeState.persist_boot_failure_count,
          RuntimeState.push_diagnostic, RuntimeState.mark_offline_with_reason,
          hsat, hst, hge]
  · intro st hst
    by_cases hge : s.boot_failure_count + 1 ≥ s.boot_retry_limit <;>
      simp [RuntimeState.mark_boot_failure, RuntimeState.persist_boot_failure_count,
        RuntimeState.push_diagnostic, RuntimeState.mark_offline_with_reason,
        hsat, hst, hge]
  · intro hge
    cases hst : s.storage <;>
      simp [RuntimeState.mark_boot_failure, RuntimeState.persist_boot_failure_count,
        RuntimeState.push_diagnostic, RuntimeState.mark_offline_with_reason,
        hsat, hst, hge]
  · intro hlt
    have hge : ¬ (s.boot_failure_count + 1 ≥ s.boot_retry_limit) := by omega
    cases hst : s.storage <;>
      simp [RuntimeState.mark_boot_failure, RuntimeState.persist_boot_failure_count,
        RuntimeState.push_diagnostic, RuntimeState.mark_offline_with_reason,
        hsat, hst, hge]

/-- Witness for C4: a first failure (with storage) persists count 1 and ends
Offline; a third failure latches SafeMode. -/
theorem mark_boot_failure_spec_witness :
    ({ RuntimeState.new with storage := some ⟨[], []⟩ }.mark_boot_failure 100
        "r").boot_failure_count = 0 + 1
    ∧ ({ RuntimeState.new with storage := some ⟨[], []⟩ }.mark_boot_failure 100
        "r").storage = some (DeviceStorage.set_u32 ⟨[], []⟩ BOOT_FAILURE_COUNT (0 + 1))
    ∧ ({ RuntimeState.new with storage := some ⟨[], []⟩ }.mark_boot_failure 100
        "r").mode = .offline
    ∧ ({ RuntimeState.new with boot_failure_count := 2 }.mark_boot_failure 100
        "r").mode = .safeMode "boot_failures_exceeded" :=
  ⟨(mark_boot_failure_spec.2 { RuntimeState.new with storage := some ⟨[], []⟩ } 100 "r"
      (by decide)).1,
   (mark_boot_failure_spec.2 { RuntimeState.new with storage := some ⟨[], []⟩ } 100 "r"
      (by decide)).2.1 ⟨[], []⟩ rfl,
   (mark_boot_failure_spec.2 { RuntimeState.new with storage := some ⟨[], []⟩ } 100 "r"
      (by decide)).2.2.2 (by decide),
   (mark_boot_failure_spec.2 { RuntimeState.new with boot_failure_count := 2 } 100 "r"
      (by decide)).2.2.1 (by decide)⟩

/-- Arithmetic of the circuit-breaker deadline. -/
theorem circuit_deadline_eq (now base k : Nat) (hnow : now + 30000 ≤ U64_MAX) :
    satAdd64 now (min (satMul64 k base) 30000)
      = now + min 30000 (base * k) := by
  have hM : U64_MAX = 18446744073709551615 := by norm_num [U64_MAX]
  rw [Nat.mul_comm base k]
  rw [hM] at hnow
  simp only [satAdd64, satMul64, hM]
  generalize k * base = kb
  simp only [Nat.min_def]
  split_ifs <;> omega

/-- C5: dry_run short-circuits with status 0 and the dry-run stdout regardless
of circuit state; with the circuit closed (now below backend_circuit_until) a
non-dry-run dispatch fails fast without invoking the backend; a backend
success zeroes the failure counter and the circuit deadline; a backend failure
sets the deadline to now + min(30000, base_backoff * 2^min(failures, 12)). -/
theorem run_in_sandbox_spec (h : HostState) (now_ms : Nat) (task : ScheduledTask)
    (backend : BackendOutcome) :
    (h.config.dry_run = true →
      (h.run_in_sandbox now_ms task backend).result
          = .ok { status := 0, stdout := "dry-run " ++ task.id ++ " " ++ task.prompt,
                  stderr := "" }
      ∧ (h.run_in_sandbox now_ms task backend).state = h
      ∧ (h.run_in_sandbox now_ms task backend).invoked_backend = false)
    ∧ (h.config.dry_run = false → now_ms < h.backend_circuit_until →
        (h.run_in_sandbox now_ms task backend).result
            = .error "sandbox backend circuit breaker active"
        ∧ (h.run_in_sandbox now_ms task backend).state = h
        ∧ (h.run_in_sandbox now_ms task backend).invoked_backend = false)
    ∧ (∀ r, h.config.dry_run = false → h.backend_circuit_until ≤ now_ms →
        backend = .ok r →
        (h.run_in_sandbox now_ms task backend).state.backend_failures = 0
        ∧ (h.run_in_sandbox now_ms task backend).state.backend_circuit_until = 0)
    ∧ (∀ e, h.config.dry_run = false → h.backend_circuit_until ≤ now_ms →
        backend = .err e → h.backend_failures + 1 ≤ U64_MAX →
        now_ms + 30000 ≤ U64_MAX →
        (h.run_in_sandbox now_ms task backend).state.backend_failures
            = h.backend_failures + 1
        ∧ (h.run_in_sandbox now_ms task backend).state.backend_circuit_until
            = now_ms + min 30000
                (h.config.queue_retry_backoff_ms
                  * 2 ^ min (h.backend_failures + 1) 12)) := by
  refine ⟨?_, ?_, ?_, ?_⟩
  · intro hdry
    simp [HostState.run_in_sandbox, hdry]
  · intro hdry hlt
    simp [HostState.run_in_sandbox, hdry, hlt]
  · intro r hdry hge hb
    subst hb
    simp [HostState.run_in_sandbox, hdry, Nat.not_lt.mpr hge]
  · intro e hdry hge hb hcnt hnow
    subst hb
    have hsat : satAdd64 h.backend_failures 1 = h.backend_failures + 1 := by
      simp only [satAdd64]
      omega
    refine ⟨?_, ?_⟩
    · simp [HostState.run_in_sandbox, hdry, Nat.not_lt.mpr hge, hsat]
    · have hred : (h.run_in_sandbox now_ms task (.err e)).state.backend_circuit_until
          = satAdd64 now_ms
              (min (satMul64 (2 ^ min (h.backend_failures + 1) 12)
                h.config.queue_retry_backoff_ms) 30000) := by
        simp [HostState.run_in_sandbox, hdry, Nat.not_lt.mpr hge, hsat]
      rw [hred]
      exact circuit_deadline_eq now_ms h.config.queue_retry_backoff_ms _ hnow

/-- Concrete host configuration used by the host-side witnesses. -/
def hostCfg : HostConfig :=
  { host_id := "h", device_id := "dev", allowed_sources := [],
    allowed_host_actions := ["status", "restart"], queue_retry_backoff_ms := 500,
    dry_run := false }

/-- The dry-run variant of the witness host. -/
def hostDry : HostState :=
  { mkHost hostCfg with
    config := { hostCfg with dry_run := true },
    backend_circuit_until := 9999 }

/-- The witness host with a closed circuit. -/
def hostClosed : HostState :=
  { mkHost hostCfg with
    backend_circuit_until := 2000 }

/-- The witness host with prior failures and an open circuit. -/
def hostFailed : HostState :=
  { mkHost hostCfg with
    backend_failures := 7,
    backend_circuit_until := 900 }

/-- Witness for C5: dry-run result, fail-fast under a closed circuit, deadline
arithmetic on a first failure, and counter reset on success. -/
theorem run_in_sandbox_spec_witness :
    ((hostDry.run_in_sandbox 1 ⟨"t1", "p", "c", "g"⟩ (.err "boom")).result
        = .ok { status := 0, stdout := "dry-run t1 p", stderr := "" })
    ∧ ((hostClosed.run_in_sandbox 1000 ⟨"t1", "p", "c", "g"⟩ (.err "boom")).result
        = .error "sandbox backend circuit breaker active")
    ∧ ((hostClosed.run_in_sandbox 1000 ⟨"t1", "p", "c", "g"⟩
          (.err "boom")).invoked_backend = false)
    ∧ ((mkHost hostCfg).run_in_sandbox 1000 ⟨"t1", "p", "c", "g"⟩
          (.err "boom")).state.backend_circuit_until
        = 1000 + min 30000 (500 * 2 ^ min (0 + 1) 12)
    ∧ (hostFailed.run_in_sandbox 1000 ⟨"t1", "p", "c", "g"⟩
          (.ok ⟨0, "out", ""⟩)).state.backend_failures = 0 := by
  refine ⟨?_, ?_, ?_, ?_, ?_⟩
  · exact (run_in_sandbox_spec hostDry 1 ⟨"t1", "p", "c", "g"⟩ (.err "boom")
      |>.1 rfl).1
  · exact (run_in_sandbox_spec hostClosed 1000 ⟨"t1", "p", "c", "g"⟩ (.err "boom")
      |>.2.1 rfl (by decide)).1
  · exact (run_in_sandbox_spec hostClosed 1000 ⟨"t1", "p", "c", "g"⟩ (.err "boom")
      |>.2.1 rfl (by decide)).2.2
  · exact (run_in_sandbox_spec (mkHost hostCfg) 1000 ⟨"t1", "p", "c", "g"⟩
      (.err "boom") |>.2.2.2 "boom" rfl (by decide) rfl (by decide) (by decide)).2
  · exact (run_in_sandbox_spec hostFailed 1000 ⟨"t1", "p", "c", "g"⟩
      (.ok ⟨0, "out", ""⟩) |>.2.2.1 ⟨0, "out", ""⟩ rfl (by decide) rfl).1

/-- emit_outbound leaves the rejection counter and queue alone and puts the
frame at the back of the outbound buffer. -/
theorem emit_outbound_effects (h : HostState) (f : TransportMessage) :
    (h.emit_outbound f).commands_rejected = h.commands_rejected
    ∧ (h.emit_outbound f).queue = h.queue
    ∧ (h.emit_outbound f).outbound.getLast? = some f := by
  by_cases hlen : h.outbound.length ≥ 128 <;>
    simp [HostState.emit_outbound, HostState.send_frame, hlen, List.getLast?_concat]

theorem emit_outbound_commands_rejected (h : HostState) (f : TransportMessage) :
    (h.emit_outbound f).commands_rejected = h.commands_rejected :=
  (emit_outbound_effects h f).1

theorem emit_outbound_queue (h : HostState) (f : TransportMessage) :
    (h.emit_outbound f).queue = h.queue :=
  (emit_outbound_effects h f).2.1

theorem emit_outbound_getLast (h : HostState) (f : TransportMessage) :
    (h.emit_outbound f).outbound.getLast? = some f :=
  (emit_outbound_effects h f).2.2

/-- C6: a parsed inbound Command/HostCommand from an allowed source is, when
the configured allowed_host_actions list is non-empty and does not contain its
action, rejected with a command_denied Error frame carrying the inbound
corr_id and a commands_rejected bump, without enqueueing; otherwise it is
enqueued under the session_id group (device_id when session_id is empty). -/
theorem host_command_allowlist_spec (h : HostState) (now_ms : Nat)
    (frame : TransportMessage) (cmd : DeviceCommand)
    (hsrc : h.is_source_allowed frame.envelope.source = true)
    (hkind : frame.kind = .command ∨ frame.kind = .hostCommand)
    (hcmd : frame.as_device_command = some cmd)
    (hcount : h.commands_rejected < U64_MAX) :
    (h.config.allowed_host_actions ≠ [] →
      h.allowed_actions.contains cmd.action = false →
      (h.handle_inbound_frame now_ms frame).commands_rejected
          = h.commands_rejected + 1
      ∧ (h.handle_inbound_frame now_ms frame).queue = h.queue
      ∧ ∃ out, (h.handle_inbound_frame now_ms frame).outbound.getLast? = some out
          ∧ out.kind = .error
          ∧ out.corr_id = frame.corr_id
          ∧ ∃ pe, out.payload.err = some pe ∧ pe.code = "command_denied")
    ∧ ((h.config.allowed_host_actions = []
          ∨ h.allowed_actions.contains cmd.action = true) →
        (h.handle_inbound_frame now_ms frame).commands_rejected = h.commands_rejected
        ∧ (h.handle_inbound_frame now_ms frame).queue
            = h.queue ++
              [((if frame.envelope.session_id.isEmpty then frame.envelope.device_id
                 else frame.envelope.session_id),
                "cmd-" ++ frame.envelope.device_id ++ "-" ++ toString now_ms,
                Work.command cmd.action frame.corr_id
                  (if frame.envelope.session_id.isEmpty then frame.envelope.device_id
                   else frame.envelope.session_id)
                  frame.envelope.source cmd.args)]) := by
  have hstep : h.handle_inbound_frame now_ms frame
      = h.enqueue_command now_ms frame.envelope.source frame.envelope.session_id
          frame.corr_id cmd frame.envelope.device_id := by
    rcases hkind with hk | hk <;>
      simp [HostState.handle_inbound_frame, hsrc, hk, hcmd]
  constructor
  · intro hne hnotin
    have hempty : h.config.allowed_host_actions.isEmpty = false := by
      simp [List.isEmpty_iff, hne]
    have hnotin2 : cmd.action ∉ h.allowed_actions := by simpa using hnotin
    have hsat : satAdd64 h.commands_rejected 1 = h.commands_rejected + 1 := by
      simp only [satAdd64]
      omega
    have hcond : (!h.config.allowed_host_actions.isEmpty
        && !(h.allowed_actions.contains cmd.action)) = true := by
      simp only [hempty, hnotin, Bool.not_false, Bool.and_self]
    rw [hstep]
    refine ⟨?_, ?_, ?_⟩
    · simp [HostState.enqueue_command, hne, hnotin2,
        emit_outbound_commands_rejected, hsat]
    · simp [HostState.enqueue_command, hne, hnotin2, emit_outbound_queue]
    · simp only [HostState.enqueue_command]
      rw [if_pos hcond]
      exact ⟨_, emit_outbound_getLast _ _, rfl, rfl, _, rfl, rfl⟩
  · intro hor
    have hcond : (!h.config.allowed_host_actions.isEmpty
        && !(h.allowed_actions.contains cmd.action)) = false := by
      rcases hor with hor | hor
      · simp only [hor, List.isEmpty_nil, Bool.not_true, Bool.false_and]
      · simp only [hor, Bool.not_true, Bool.and_false]
    rw [hstep]
    simp only [HostState.enqueue_command]
    rw [if_neg]
    · exact ⟨rfl, rfl⟩
    · rw [hcond]
      exact Bool.false_ne_true

/-- A denied inbound command frame (action mute, not in the host allowlist). -/
def c6DenyFrame : TransportMessage :=
  { c7Frame 0 with
    kind := .command,
    corr_id := some "k1",
    payload := { cmd := some { action := .mute, args := [] } } }

/-- An allowed inbound command frame (action restart). -/
def c6AllowFrame : TransportMessage :=
  { c7Frame 0 with
    kind := .command,
    corr_id := some "k2",
    payload := { cmd := some { action := .restart, args := [] } } }

/-- Witness for C6: mute is denied with a correlated command_denied Error and
no enqueue; restart is enqueued under the session_id group. -/
theorem host_command_allowlist_spec_witness :
    (((mkHost hostCfg).handle_inbound_frame 7 c6DenyFrame).commands_rejected = 0 + 1
      ∧ ((mkHost hostCfg).handle_inbound_frame 7 c6DenyFrame).queue = []
      ∧ ∃ out, ((mkHost hostCfg).handle_inbound_frame 7
            c6DenyFrame).outbound.getLast? = some out
          ∧ out.kind = .error
          ∧ out.corr_id = c6DenyFrame.corr_id
          ∧ ∃ pe, out.payload.err = some pe ∧ pe.code = "command_denied")
    ∧ ((mkHost hostCfg).handle_inbound_frame 7 c6AllowFrame).queue
        = [] ++
          [("s", "cmd-" ++ "d" ++ "-" ++ toString 7,
            Work.command .restart (some "k2") "s" "host" [])] := by
  constructor
  · exact (host_command_allowlist_spec (mkHost hostCfg) 7 c6DenyFrame
      { action := .mute, args := [] } (by decide) (Or.inl rfl) (by decide)
      (by decide)).1 (by decide) (by decide)
  · exact ((host_command_allowlist_spec (mkHost hostCfg) 7 c6AllowFrame
      { action := .restart, args := [] } (by decide) (Or.inl rfl) (by decide)
      (by decide)).2 (Or.inr (by decide))).2

/-- One inbound step never pushes the seen-set past 513 entries. -/
theorem apply_seen_le_513 (s : RuntimeState) (now_ms : Nat) (msg : TransportMessage)
    (h : s.seen_message_ids.length ≤ 513) :
    ((s.apply_transport_message now_ms msg).1).seen_message_ids.length ≤ 513 := by
  unfold RuntimeState.apply_transport_message
  split
  · simpa using h
  · split
    · simpa using h
    · split
      · simpa using h
      · rw [(kindStep_frame _ _ _).2.1]
        show ((({ s with last_seq := msg.envelope.seq }).track_message_id
            msg.envelope.seq msg.envelope.message_id).seen_message_ids).length ≤ 513
        unfold RuntimeState.track_message_id
        split
        · calc (upsert ([] : List (String × Nat)) msg.envelope.message_id.str
                msg.envelope.seq).length ≤ 0 + 1 := upsert_length_le [] _ _
            _ ≤ 513 := by omega
        · rename_i hlen
          have hlen2 : s.seen_message_ids.length ≤ 512 := by simpa using hlen
          calc (upsert s.seen_message_ids msg.envelope.message_id.str
                msg.envelope.seq).length ≤ s.seen_message_ids.length + 1 :=
              upsert_length_le _ _ _
            _ ≤ 513 := by omega

/-- Folding inbound frames preserves the 513 bound on the seen-set. -/
theorem fold_seen_le_513 (msgs : List TransportMessage) (now_ms : Nat) :
    ∀ s : RuntimeState, s.seen_message_ids.length ≤ 513 →
      ((msgs.foldl (fun t m => (t.apply_transport_message now_ms m).1)
          s)).seen_message_ids.length ≤ 513 := by
  induction msgs with
  | nil => intro s h; simpa using h
  | cons m rest ih =>
    intro s h
    simpa using ih _ (apply_seen_le_513 s now_ms m h)

/-- C7 counterexample: after 513 accepted frames from the fresh state the
seen-message-id set holds 513 entries, exceeding the claimed 512 bound. -/
theorem seen_set_exceeds_512 : 512 < (c7Run 513).seen_message_ids.length := by
  have h := (c7Run_spec 513 (by omega)).2.2.1
  omega

/-- C7 amended: over any sequence of inbound frames from the fresh state the
seen-message-id set holds at most 513 entries; an insertion that finds the set
already above 512 entries clears it first, leaving exactly one entry. -/
theorem seen_set_bounded_by_513 :
    (∀ (msgs : List TransportMessage) (now_ms : Nat),
        ((msgs.foldl (fun t m => (t.apply_transport_message now_ms m).1)
            RuntimeState.new)).seen_message_ids.length ≤ 513)
    ∧ (∀ (s : RuntimeState) (seq : Nat) (mid : MessageId),
        s.seen_message_ids.length > 512 →
        (s.track_message_id seq mid).seen_message_ids.length = 1) := by
  constructor
  · intro msgs now_ms
    exact fold_seen_le_513 msgs now_ms RuntimeState.new (by simp [RuntimeState.new])
  · intro s seq mid hlen
    unfold RuntimeState.track_message_id
    simp [hlen, upsert]

/-- A state whose seen-set already holds 513 entries. -/
def bigSeenState : RuntimeState :=
  { RuntimeState.new with
    seen_message_ids := (List.range 513).map (fun i => (c7id i, i)) }

/-- Witness for the amended C7: inserting into a 513-entry set leaves one. -/
theorem seen_set_bounded_by_513_witness :
    (bigSeenState.track_message_id 1 ⟨"x"⟩).seen_message_ids.length = 1 :=
  seen_set_bounded_by_513.2 bigSeenState 1 ⟨"x"⟩ (by simp [bigSeenState])

end Microclaw
